import Mathlib

/-!
A verification development for the PTMSC Pinto Abalone exhibit media player
(MediaPlayer.c together with mediadef.h). The clip catalog, the two
single-slot request mailbox cells, the command handlers, the body of the
scheduler main loop (one tick) and the return codes of main are embedded as
executable Lean definitions, and the properties claimed of them are settled
as theorems below the definitions.
-/

namespace MediaPlayer

/-- enum clipTypes (mediadef.h). -/
inductive ClipType
  | playOnce
  | playThrough
  | loop
deriving DecidableEq, Repr

/-- struct clip_t (mediadef.h): name, file and type of one clip. -/
structure Clip where
  name : String
  file : String
  type : ClipType
deriving DecidableEq, Repr

/-- The clips array (mediadef.h), in catalog order; the index is the clip id. -/
def clips : List Clip := [
  ⟨"noClip", "dummy.mp4", ClipType.playOnce⟩,
  ⟨"divingLoop", "divingLoop.mp4", ClipType.loop⟩,
  ⟨"restingLoop", "restingLoop.mp4", ClipType.loop⟩,
  ⟨"abandonedClip", "abandonedClip.mp4", ClipType.loop⟩,
  ⟨"instructLoop", "instructLoop.mp4", ClipType.loop⟩,
  ⟨"fullSite1Clip", "fullSite1Clip.mp4", ClipType.playOnce⟩,
  ⟨"fullSite2Clip", "fullSite2Clip.mp4", ClipType.playOnce⟩,
  ⟨"fullSite3Clip", "fullSite3Clip.mp4", ClipType.playOnce⟩,
  ⟨"fullSite4Clip", "fullSite4Clip.mp4", ClipType.playOnce⟩,
  ⟨"fullSite5Clip", "fullSite5Clip.mp4", ClipType.playOnce⟩,
  ⟨"site1NoCohortsClip", "site1NoCohortsClip.mp4", ClipType.playOnce⟩,
  ⟨"site2NoCohortsClip", "site2NoCohortsClip.mp4", ClipType.playOnce⟩,
  ⟨"site3NoCohortsClip", "site3NoCohortsClip.mp4", ClipType.playOnce⟩,
  ⟨"site4NoCohortsClip", "site4NoCohortsClip.mp4", ClipType.playOnce⟩,
  ⟨"site5NoCohortsClip", "site5NoCohortsClip.mp4", ClipType.playOnce⟩,
  ⟨"openSite1Clip", "openSite1Clip.mp4", ClipType.playOnce⟩,
  ⟨"openSite2Clip", "openSite2Clip.mp4", ClipType.playOnce⟩,
  ⟨"openSite3Clip", "openSite3Clip.mp4", ClipType.playOnce⟩,
  ⟨"openSite4Clip", "openSite4Clip.mp4", ClipType.playOnce⟩,
  ⟨"openSite5Clip", "openSite5Clip.mp4", ClipType.playOnce⟩,
  ⟨"fillSite1Clip", "fillSite1Clip.mp4", ClipType.playOnce⟩,
  ⟨"fillSite2Clip", "fillSite2Clip.mp4", ClipType.playOnce⟩,
  ⟨"fillSite3Clip", "fillSite3Clip.mp4", ClipType.playOnce⟩,
  ⟨"fillSite4Clip", "fillSite4Clip.mp4", ClipType.playOnce⟩,
  ⟨"fillSite5Clip", "fillSite5Clip.mp4", ClipType.playOnce⟩,
  ⟨"atSite1Loop", "atSite1Loop.mp4", ClipType.loop⟩,
  ⟨"atSite2Loop", "atSite2Loop.mp4", ClipType.loop⟩,
  ⟨"atSite3Loop", "atSite3Loop.mp4", ClipType.loop⟩,
  ⟨"atSite4Loop", "atSite4Loop.mp4", ClipType.loop⟩,
  ⟨"atSite5Loop", "atSite5Loop.mp4", ClipType.loop⟩,
  ⟨"reviewSite1Clip", "reviewSite1Clip.mp4", ClipType.playOnce⟩,
  ⟨"reviewSite2Clip", "reviewSite2Clip.mp4", ClipType.playOnce⟩,
  ⟨"reviewSite3Clip", "reviewSite3Clip.mp4", ClipType.playOnce⟩,
  ⟨"reviewSite4Clip", "reviewSite4Clip.mp4", ClipType.playOnce⟩,
  ⟨"reviewSite5Clip", "reviewSite5Clip.mp4", ClipType.playOnce⟩,
  ⟨"outAtSite1Clip", "outAtSite1Clip.mp4", ClipType.playOnce⟩,
  ⟨"outAtSite2Clip", "outAtSite2Clip.mp4", ClipType.playOnce⟩,
  ⟨"outAtSite3Clip", "outAtSite3Clip.mp4", ClipType.playOnce⟩,
  ⟨"outAtSite4Clip", "outAtSite4Clip.mp4", ClipType.playOnce⟩,
  ⟨"outAtSite5Clip", "outAtSite5Clip.mp4", ClipType.playOnce⟩,
  ⟨"boatCohortsLoop", "boatCohortsLoop.mp4", ClipType.loop⟩,
  ⟨"atBoatLoopp", "atBoatLoop.mp4", ClipType.loop⟩,
  ⟨"transitionClip", "transitionClip.mp4", ClipType.playOnce⟩,
  ⟨"calibrationLoop", "calibrateLoop.mp4", ClipType.loop⟩,
  ⟨"reviewIntroClip", "reviewIntroClip.mp4", ClipType.playOnce⟩,
  ⟨"superScoreClip", "superScoreClip.mp4", ClipType.playOnce⟩,
  ⟨"goodScoreClip", "gooScoreClip.mp4", ClipType.playOnce⟩,
  ⟨"mehScoreClip", "mehScoreClip.mp4", ClipType.playOnce⟩]

/-- CLIP_COUNT, computed in the source as sizeof(clips) / sizeof(clips[0]). -/
def CLIP_COUNT : Int := (clips.length : Int)

/-- Indexing clips[i]; out-of-range indexing in the source is undefined
    behavior, represented here by a default descriptor. -/
def clipAt (cat : List Clip) (i : Int) : Clip :=
  (cat.get? i.toNat).getD ⟨"", "", ClipType.playOnce⟩

/-- One mailbox cell: a newClipId / switchClip (or newLoopId / switchLoop)
    global pair of MediaPlayer.c, the lock being implicit in the atomicity of
    each operation. -/
structure Cell where
  value : Int
  present : Bool
deriving DecidableEq, Repr

def emptyCell : Cell := ⟨0, false⟩

/-- A producer writes the id and raises the flag under the lock
    (onPlay, onPlayClip, onSetLoop all end with this ritual). -/
def submit (v : Int) (c : Cell) : Cell := { c with value := v, present := true }

/-- The scheduler reads the id and lowers the flag under the lock
    (main loop, the switchLoop and switchClip blocks). -/
def drain (c : Cell) : Option Int × Cell :=
  if c.present then (some c.value, { c with present := false }) else (none, c)

/-- The three main-loop variables of main together with the running flag. -/
structure SchedState where
  reqClipId : Int
  reqLoopId : Int
  nowPlayingId : Int
  running : Bool
deriving DecidableEq, Repr

/-- Accumulate leading decimal digits, as atoi does after sign handling. -/
def digitsVal : List Char → Int → Int
  | c :: rest, acc =>
    if c.isDigit then digitsVal rest (acc * 10 + ((c.toNat : Int) - 48)) else acc
  | [], acc => acc

/-- C atoi on a token: optional sign, then leading decimal digits; 0 when the
    token has no leading digits. Tokens come from sscanf %s and hold no
    whitespace; int overflow is not modelled. -/
def atoi (s : String) : Int :=
  match s.toList with
  | '-' :: rest => - digitsVal rest 0
  | '+' :: rest => digitsVal rest 0
  | l => digitsVal l 0

/-- onPlay: resolve the clip name against the catalog; on a hit submit the
    index to the clip cell, otherwise report and leave everything unchanged. -/
def onPlay (cat : List Clip) (n : Int) (w1 : String) (cell : Cell) : Cell :=
  if n < 2 then cell
  else
    match cat.findIdx? (fun c => c.name == w1) with
    | some cNo => submit (cNo : Int) cell
    | none => cell

/-- onPlayClip: a missing clipId argument or an out-of-range clipId is
    replaced by 0; the resulting id is always submitted to the clip cell. -/
def onPlayClip (cat : List Clip) (n : Int) (w1 : String) (cell : Cell) : Cell :=
  submit
    (if n < 2 then 0
     else
       if atoi w1 < 0 ∨ atoi w1 ≥ (cat.length : Int) then 0 else atoi w1)
    cell

/-- onSetLoop: same validation and substitution as onPlayClip, submitted to
    the loop cell. -/
def onSetLoop (cat : List Clip) (n : Int) (w1 : String) (cell : Cell) : Cell :=
  submit
    (if n < 2 then 0
     else
       if atoi w1 < 0 ∨ atoi w1 ≥ (cat.length : Int) then 0 else atoi w1)
    cell

/-- onStop: the stop and !stop handler clears the running flag. -/
def onStop (s : SchedState) : SchedState := { s with running := false }

/-- The diagnostic lines the main loop prints, as tags. -/
inductive LogEvent
  | nonExistentLoop (id : Int)
  | nonLoopingClip (id : Int)
  | switchingLoop (id : Int)
  | switchingClip (id : Int)
  | nonExistentClip (id : Int)
  | escapeHatch
  | finishedClip (id : Int)
  | videoEndsWriteError
  | startingClip (id : Int)
  | playStartFailed
deriving DecidableEq, Repr

/-- Result of one of the two drain-and-react blocks at the top of a tick. -/
structure StepOut where
  state : SchedState
  cell : Cell
  paused : Bool
  playing : Bool
  log : List LogEvent
deriving DecidableEq, Repr

/-- The switchLoop block of the main loop: drain the loop cell; restore the
    old id when the drained id is out of range or names a non-loop clip;
    otherwise adopt it, and when the old background loop is what is playing,
    swap nowPlayingId and pause the player. -/
def loopStep (cat : List Clip) (s : SchedState) (loopCell : Cell) (playing : Bool) : StepOut :=
  if loopCell.present = true then
    if loopCell.value < 0 ∨ loopCell.value ≥ (cat.length : Int) then
      ⟨s, { loopCell with present := false }, false, playing,
        [LogEvent.nonExistentLoop loopCell.value]⟩
    else if (clipAt cat loopCell.value).type ≠ ClipType.loop then
      ⟨s, { loopCell with present := false }, false, playing,
        [LogEvent.nonLoopingClip loopCell.value]⟩
    else if s.nowPlayingId = s.reqLoopId then
      ⟨{ s with reqLoopId := loopCell.value, nowPlayingId := loopCell.value },
        { loopCell with present := false }, true, false,
        [LogEvent.switchingLoop loopCell.value]⟩
    else
      ⟨{ s with reqLoopId := loopCell.value },
        { loopCell with present := false }, false, playing,
        [LogEvent.switchingLoop loopCell.value]⟩
  else
    ⟨s, loopCell, false, playing, []⟩

/-- The switchClip block of the main loop: drained only when switchClip is up
    and reqClipId is 0. The out-of-range branch prints but then executes
    the no-effect statement reqClipId - oldClipId, so the drained value is
    kept; otherwise the drained value becomes the pending request, and the
    player is paused when the playing clip is not playThrough. -/
def clipStep (cat : List Clip) (s : SchedState) (clipCell : Cell) (playing : Bool) : StepOut :=
  if clipCell.present = true ∧ s.reqClipId = 0 then
    if clipCell.value < 0 ∨ clipCell.value ≥ (cat.length : Int) then
      ⟨{ s with reqClipId := clipCell.value }, { clipCell with present := false },
        false, playing,
        [LogEvent.switchingClip clipCell.value, LogEvent.nonExistentClip clipCell.value]⟩
    else if (clipAt cat s.nowPlayingId).type ≠ ClipType.playThrough ∧ playing = true then
      ⟨{ s with reqClipId := clipCell.value }, { clipCell with present := false },
        true, false, [LogEvent.switchingClip clipCell.value]⟩
    else
      ⟨{ s with reqClipId := clipCell.value }, { clipCell with present := false },
        false, playing, [LogEvent.switchingClip clipCell.value]⟩
  else
    ⟨s, clipCell, false, playing, []⟩

/-- The reselection of the idle branch: take the pending request if there is
    one, else the background loop. -/
def selectNext (s : SchedState) : SchedState :=
  if s.reqClipId ≠ 0 then { s with nowPlayingId := s.reqClipId, reqClipId := 0 }
  else { s with nowPlayingId := s.reqLoopId }

/-- Engine and clock facts the loop body observes during one tick. -/
structure TickInput where
  isPlaying : Bool
  escape : Bool
  playFails : Bool
  writeError : Bool
deriving DecidableEq, Repr

/-- Output of the tail of the tick: the escape hatch else-if chain, the
    completion notification, the reselection and the play call. -/
structure EndOut where
  state : SchedState
  notifications : List String
  played : Option Int
  log : List LogEvent
deriving DecidableEq, Repr

/-- The escape-hatch check and the idle branch of the main loop. ESCAPE_SEC
    is defined in the source, so the hatch is compiled in and, being the
    head of an else-if chain, skips the idle branch on the tick it fires. -/
def endStep (cat : List Clip) (s : SchedState) (inp : TickInput) (playing : Bool) : EndOut :=
  if inp.escape = true then
    ⟨{ s with running := false }, [], none, [LogEvent.escapeHatch]⟩
  else if playing = true then
    ⟨s, [], none, []⟩
  else
    ⟨{ selectNext s with running := if inp.playFails then false else s.running },
      if (clipAt cat s.nowPlayingId).type ≠ ClipType.loop then ["!videoEnds\n"] else [],
      some (selectNext s).nowPlayingId,
      (if (clipAt cat s.nowPlayingId).type ≠ ClipType.loop then
         LogEvent.finishedClip s.nowPlayingId ::
           (if inp.writeError = true then [LogEvent.videoEndsWriteError] else [])
       else []) ++
      (if s.reqClipId ≠ 0 then [LogEvent.startingClip s.reqClipId] else []) ++
      (if inp.playFails then [LogEvent.playStartFailed] else [])⟩

/-- Everything one tick of the main loop produces. -/
structure TickResult where
  state : SchedState
  clipCell : Cell
  loopCell : Cell
  paused : Bool
  notifications : List String
  played : Option Int
  log : List LogEvent
deriving DecidableEq, Repr

/-- One iteration of the while (running) loop of main: the switchLoop block,
    then the switchClip block, then the escape hatch / idle-reselect chain.
    A pause issued by an earlier block makes the later is_playing queries
    report not playing. -/
def tick (cat : List Clip) (s : SchedState) (clipCell loopCell : Cell) (inp : TickInput) : TickResult :=
  let a := loopStep cat s loopCell inp.isPlaying
  let b := clipStep cat a.state clipCell a.playing
  let c := endStep cat b.state inp b.playing
  ⟨c.state, b.cell, a.cell, a.paused || b.paused, c.notifications, c.played,
    a.log ++ b.log ++ c.log⟩

/-- A three-clip catalog exercising the playThrough kind; the shipped
    catalog in mediadef.h contains no playThrough clip, so playThrough
    scheduling can only be shown on a catalog such as this one. -/
def ptCat : List Clip :=
  [⟨"idleLoop", "idleLoop.mp4", ClipType.loop⟩,
   ⟨"ptClip", "ptClip.mp4", ClipType.playThrough⟩,
   ⟨"aClip", "aClip.mp4", ClipType.playOnce⟩]

/-- Return codes of MediaPlayer.c. -/
def RET_OK : Int := 0

def RET_MICF : Int := -1

def RET_MPCF : Int := -2

def RET_MPPF : Int := -3

def RET_KTCF : Int := -4

def RET_CTCF : Int := -5

def RET_OCTF : Int := -6

/-- The ways main can terminate. loopExit covers every exit of the
    while (running) loop: the stop command, the escape hatch, and a
    play-start failure, all of which clear running and fall through to the
    cleanup code. -/
inductive MainOutcome
  | keyboardThreadFail
  | ctlInOpenFail
  | ctlInBufFail
  | ctlInTermiosGetFail
  | ctlInTermiosSetFail
  | ctlOutOpenFail
  | controllerThreadFail
  | mediaItemFail
  | playerCreateFail
  | loopExit
deriving DecidableEq, Repr

/-- The value main returns for each way it terminates, read off the return
    statements of main in source order. -/
def mainReturn : MainOutcome → Int
  | MainOutcome.keyboardThreadFail => RET_KTCF
  | MainOutcome.ctlInOpenFail => RET_OCTF
  | MainOutcome.ctlInBufFail => RET_OCTF
  | MainOutcome.ctlInTermiosGetFail => RET_OCTF
  | MainOutcome.ctlInTermiosSetFail => RET_OCTF
  | MainOutcome.ctlOutOpenFail => RET_OCTF
  | MainOutcome.controllerThreadFail => RET_CTCF
  | MainOutcome.mediaItemFail => RET_MICF
  | MainOutcome.playerCreateFail => RET_MPCF
  | MainOutcome.loopExit => RET_OK

/-- MAX_WSIZE: the declared row size of the word[3][20] token buffers in
    doCommand and of the cmd field of cmd_t. -/
def MAX_WSIZE : Nat := 20

/-- The conversion field width in the sscanf format of doCommand,
    "%20s %20s %20s". -/
def scanFieldWidth : Nat := 20

/-- Bytes one %Ns conversion of sscanf stores for a given token: min(length,
    N) characters plus the terminating NUL, per the ISO C semantics of the
    s conversion with a field width. -/
def scanStoreBytes (token : String) : Nat := min token.length scanFieldWidth + 1

/-- Models ISO C fprintf applied to a format string with an empty variadic
    argument list: the %% directive emits one percent sign and every other
    character is copied. Conversions such as %d would consume a missing
    variadic argument, which is undefined behavior, and are not modelled. -/
def cFormat : List Char → List Char
  | [] => []
  | [c] => [c]
  | c1 :: c2 :: rest =>
    if c1 = '%' ∧ c2 = '%' then '%' :: cFormat rest
    else c1 :: cFormat (c2 :: rest)

/-- keyboardThread: a line starting with the marker is passed, minus the
    marker, as the FORMAT argument of fprintf on the controller stream; any
    other line goes to doCommand with the keyboard registry (none here). -/
def keyboardForward (line : String) : Option String :=
  if line.toList.head? = some '!' then
    some (String.mk (cFormat (line.toList.drop 1)))
  else none

/-! Helper lemmas about the three blocks of a tick. -/

theorem loopStep_state_reqClipId (cat : List Clip) (s : SchedState) (lc : Cell) (p : Bool) :
    (loopStep cat s lc p).state.reqClipId = s.reqClipId := by
  unfold loopStep
  split_ifs <;> rfl

theorem loopStep_state_running (cat : List Clip) (s : SchedState) (lc : Cell) (p : Bool) :
    (loopStep cat s lc p).state.running = s.running := by
  unfold loopStep
  split_ifs <;> rfl

theorem clipStep_state_running (cat : List Clip) (s : SchedState) (cc : Cell) (p : Bool) :
    (clipStep cat s cc p).state.running = s.running := by
  unfold clipStep
  split_ifs <;> rfl

theorem clipStep_cell_of_pending (cat : List Clip) (s : SchedState) (cc : Cell) (p : Bool)
    (h : ¬ s.reqClipId = 0) : (clipStep cat s cc p).cell = cc := by
  unfold clipStep
  rw [if_neg]
  intro hc
  exact h hc.2

theorem loopStep_passive (cat : List Clip) (s : SchedState) (lc : Cell) (p : Bool)
    (h : lc.present = false) : loopStep cat s lc p = ⟨s, lc, false, p, []⟩ := by
  unfold loopStep
  simp [h]

theorem clipStep_passive (cat : List Clip) (s : SchedState) (cc : Cell) (p : Bool)
    (h : cc.present = false) : clipStep cat s cc p = ⟨s, cc, false, p, []⟩ := by
  unfold clipStep
  simp [h]

theorem loopStep_playing_false (cat : List Clip) (s : SchedState) (lc : Cell) :
    (loopStep cat s lc false).playing = false := by
  unfold loopStep
  split_ifs <;> rfl

theorem clipStep_playing_false (cat : List Clip) (s : SchedState) (cc : Cell) :
    (clipStep cat s cc false).playing = false := by
  unfold clipStep
  split_ifs <;> rfl

theorem endStep_running_iff (cat : List Clip) (s : SchedState) (inp : TickInput) (p : Bool)
    (hr : s.running = true) :
    ((endStep cat s inp p).state.running = false ↔
      (inp.escape = true ∨ ((endStep cat s inp p).played.isSome = true ∧ inp.playFails = true))) := by
  unfold endStep
  split_ifs <;> simp_all

theorem endStep_running_false_of_playFails (cat : List Clip) (s : SchedState) (inp : TickInput)
    (h : inp.playFails = true) (he : inp.escape = false) :
    (endStep cat s inp false).state.running = false := by
  unfold endStep
  simp [he, h]

theorem loopStep_no_startingClip (cat : List Clip) (s : SchedState) (lc : Cell) (p : Bool) :
    LogEvent.startingClip 0 ∉ (loopStep cat s lc p).log := by
  unfold loopStep
  split_ifs <;> simp

theorem clipStep_no_startingClip (cat : List Clip) (s : SchedState) (cc : Cell) (p : Bool) :
    LogEvent.startingClip 0 ∉ (clipStep cat s cc p).log := by
  unfold clipStep
  split_ifs <;> simp

theorem endStep_no_startingClip_zero (cat : List Clip) (s : SchedState) (inp : TickInput) (p : Bool) :
    LogEvent.startingClip 0 ∉ (endStep cat s inp p).log := by
  unfold endStep
  split_ifs <;> simp_all <;> omega

theorem tick_no_startingClip_zero (cat : List Clip) (s : SchedState) (cc lc : Cell) (inp : TickInput) :
    LogEvent.startingClip 0 ∉ (tick cat s cc lc inp).log := by
  intro h
  simp only [tick, List.mem_append] at h
  rcases h with (h | h) | h
  · exact loopStep_no_startingClip _ _ _ _ h
  · exact clipStep_no_startingClip _ _ _ _ h
  · exact endStep_no_startingClip_zero _ _ _ _ h

/-! The claims. -/

/-- C1 (counterexample): the claim that a clip request arriving while a
    playThrough clip is playing is dropped and never replayed is false of the
    scheduler: on a catalog with a playThrough clip (the shipped one has
    none), a request for clip 2 drained while playThrough clip 1 is playing
    is stored as the pending request without pausing the engine, and on the
    completion tick clip 2 is started. -/
theorem c1_counterexample :
    (clipAt ptCat 1).type = ClipType.playThrough ∧
    (tick ptCat ⟨0, 0, 1, true⟩ (submit 2 emptyCell) emptyCell
        ⟨true, false, false, false⟩).state.reqClipId = 2 ∧
    (tick ptCat ⟨0, 0, 1, true⟩ (submit 2 emptyCell) emptyCell
        ⟨true, false, false, false⟩).paused = false ∧
    (tick ptCat ⟨0, 0, 1, true⟩ (submit 2 emptyCell) emptyCell
        ⟨true, false, false, false⟩).state.nowPlayingId = 1 ∧
    (tick ptCat ⟨2, 0, 1, true⟩ emptyCell emptyCell
        ⟨false, false, false, false⟩).played = some 2 := by
  decide

/-- C1 (amended): the clip-request cell is drained only on ticks where no
    one-shot request is pending — while reqClipId is nonzero the cell is left
    untouched — and a request drained while a playThrough clip is playing is
    not dropped: it is held as the pending one-shot without pausing the
    engine and is started when the playThrough clip completes. -/
theorem c1_theorem (cat : List Clip) (s : SchedState) (cc lc : Cell) (inp : TickInput)
    (h : ¬ s.reqClipId = 0) :
    (tick cat s cc lc inp).clipCell = cc ∧
    (tick ptCat ⟨0, 0, 1, true⟩ (submit 2 emptyCell) emptyCell
        ⟨true, false, false, false⟩).state.reqClipId = 2 ∧
    (tick ptCat ⟨0, 0, 1, true⟩ (submit 2 emptyCell) emptyCell
        ⟨true, false, false, false⟩).paused = false ∧
    (tick ptCat ⟨2, 0, 1, true⟩ emptyCell emptyCell
        ⟨false, false, false, false⟩).played = some 2 := by
  refine ⟨?_, by decide, by decide, by decide⟩
  have hpend : ¬ (loopStep cat s lc inp.isPlaying).state.reqClipId = 0 := by
    rw [loopStep_state_reqClipId]
    exact h
  simpa only [tick] using
    clipStep_cell_of_pending cat (loopStep cat s lc inp.isPlaying).state cc
      (loopStep cat s lc inp.isPlaying).playing hpend

/-- C1 (witness): the drain guard and the queued-replay behavior at concrete
    inputs. -/
theorem c1_witness :
    (tick clips ⟨7, 1, 1, true⟩ (submit 3 emptyCell) emptyCell
        ⟨true, false, false, false⟩).clipCell = submit 3 emptyCell ∧
    (tick ptCat ⟨0, 0, 1, true⟩ (submit 2 emptyCell) emptyCell
        ⟨true, false, false, false⟩).state.reqClipId = 2 ∧
    (tick ptCat ⟨0, 0, 1, true⟩ (submit 2 emptyCell) emptyCell
        ⟨true, false, false, false⟩).paused = false ∧
    (tick ptCat ⟨2, 0, 1, true⟩ emptyCell emptyCell
        ⟨false, false, false, false⟩).played = some 2 :=
  c1_theorem clips ⟨7, 1, 1, true⟩ (submit 3 emptyCell) emptyCell
    ⟨true, false, false, false⟩ (by decide)

/-- C2 (counterexample): an out-of-range !playClip id is not ignored and the
    prior selection is not retained: onPlayClip with id 48 submits clip 0,
    and the following tick, with playOnce clip 5 playing and background loop
    1, moves nowPlayingId from 5 to 1. -/
theorem c2_counterexample :
    onPlayClip clips 2 "48" emptyCell = ⟨0, true⟩ ∧
    ¬ onPlayClip clips 2 "48" emptyCell = emptyCell ∧
    (tick clips ⟨0, 1, 5, true⟩ (onPlayClip clips 2 "48" emptyCell) emptyCell
        ⟨true, false, false, false⟩).state.nowPlayingId = 1 ∧
    ¬ (1 : Int) = 5 := by
  decide

/-- C2 (amended): a play request with an unknown name is ignored with the
    mailbox unchanged and a !playClip with id count-1 succeeds, but a
    !playClip with an out-of-range id (count, or -1) submits clip 0 in its
    place, which preempts a playing non-playThrough clip and reverts
    playback to the background loop. -/
theorem c2_theorem (cell : Cell) :
    onPlay clips 2 "nosuchclip" cell = cell ∧
    onPlayClip clips 2 "47" cell = submit 47 cell ∧
    onPlayClip clips 2 "48" cell = submit 0 cell ∧
    onPlayClip clips 2 "-1" cell = submit 0 cell ∧
    (tick clips ⟨0, 1, 5, true⟩ (submit 0 emptyCell) emptyCell
        ⟨true, false, false, false⟩).paused = true ∧
    (tick clips ⟨0, 1, 5, true⟩ (submit 0 emptyCell) emptyCell
        ⟨true, false, false, false⟩).state.nowPlayingId = 1 := by
  exact ⟨rfl, rfl, rfl, rfl, by decide, by decide⟩

/-- C3 (counterexample): the escape hatch (ESCAPE_SEC is defined in the
    source) stops the scheduler with no stop command and no engine failure;
    and a Loop clip selected as a one-shot is not replayed at completion:
    with background loop 2, finished loop clip 1 is followed by clip 2. -/
theorem c3_counterexample :
    (tick clips ⟨0, 1, 1, true⟩ emptyCell emptyCell
        ⟨true, true, false, false⟩).state.running = false ∧
    (tick clips ⟨0, 1, 1, true⟩ emptyCell emptyCell
        ⟨true, true, false, false⟩).log = [LogEvent.escapeHatch] ∧
    (clipAt clips 1).type = ClipType.loop ∧
    (tick clips ⟨0, 2, 1, true⟩ emptyCell emptyCell
        ⟨false, false, false, false⟩).played = some 2 ∧
    ¬ (2 : Int) = 1 := by
  decide

/-- C3 (amended): the scheduler clears running exactly on a stop command, a
    play-start failure on an idle tick, or the escape hatch; and a Loop clip
    that is the current background loop is reselected and replayed at each
    completion, with no notification and running still true. -/
theorem c3_theorem (cat : List Clip) (s : SchedState) (cc lc : Cell) (inp : TickInput)
    (hr : s.running = true) :
    (onStop s).running = false ∧
    ((tick cat s cc lc inp).state.running = false ↔
      (inp.escape = true ∨
        ((tick cat s cc lc inp).played.isSome = true ∧ inp.playFails = true))) ∧
    (cc.present = false → lc.present = false → inp.escape = false →
     inp.playFails = false → inp.isPlaying = false → s.reqClipId = 0 →
     s.nowPlayingId = s.reqLoopId → (clipAt cat s.nowPlayingId).type = ClipType.loop →
      (tick cat s cc lc inp).state.nowPlayingId = s.nowPlayingId ∧
      (tick cat s cc lc inp).played = some s.nowPlayingId ∧
      (tick cat s cc lc inp).notifications = [] ∧
      (tick cat s cc lc inp).state.running = true) := by
  refine ⟨rfl, ?_, ?_⟩
  · have hb : (clipStep cat (loopStep cat s lc inp.isPlaying).state cc
        (loopStep cat s lc inp.isPlaying).playing).state.running = true := by
      rw [clipStep_state_running, loopStep_state_running]
      exact hr
    simpa only [tick] using
      endStep_running_iff cat
        (clipStep cat (loopStep cat s lc inp.isPlaying).state cc
          (loopStep cat s lc inp.isPlaying).playing).state inp
        (clipStep cat (loopStep cat s lc inp.isPlaying).state cc
          (loopStep cat s lc inp.isPlaying).playing).playing hb
  · intro hcc hlc he hf hp hq hnow htype
    have hA := loopStep_passive cat s lc inp.isPlaying hlc
    have hB := clipStep_passive cat s cc inp.isPlaying hcc
    rw [hp] at hA hB
    have htype2 : (clipAt cat s.reqLoopId).type = ClipType.loop := hnow ▸ htype
    simp only [tick, hp, hA, hB]
    unfold endStep selectNext
    simp [he, hf, hq, hnow, htype, htype2, hr]

/-- C3 (witness): stop clears running, and a background Loop clip is
    replayed at completion, at concrete inputs. -/
theorem c3_witness :
    (onStop ⟨0, 1, 1, true⟩).running = false ∧
    (tick clips ⟨0, 1, 1, true⟩ emptyCell emptyCell
        ⟨false, false, false, false⟩).state.nowPlayingId = 1 ∧
    (tick clips ⟨0, 1, 1, true⟩ emptyCell emptyCell
        ⟨false, false, false, false⟩).played = some 1 ∧
    (tick clips ⟨0, 1, 1, true⟩ emptyCell emptyCell
        ⟨false, false, false, false⟩).notifications = [] ∧
    (tick clips ⟨0, 1, 1, true⟩ emptyCell emptyCell
        ⟨false, false, false, false⟩).state.running = true := by
  have h := c3_theorem clips ⟨0, 1, 1, true⟩ emptyCell emptyCell
    ⟨false, false, false, false⟩ rfl
  have h3 := h.2.2 rfl rfl rfl rfl rfl rfl rfl (by decide)
  exact ⟨h.1, h3.1, h3.2.1, h3.2.2.1, h3.2.2.2⟩

/-- C4 (counterexample): a play-start failure does not get a distinct
    negative exit code: it clears running, and the loop exit returns
    RET_OK, which is 0 and not negative. -/
theorem c4_counterexample :
    (tick clips ⟨0, 1, 1, true⟩ emptyCell emptyCell
        ⟨false, false, true, false⟩).state.running = false ∧
    LogEvent.playStartFailed ∈ (tick clips ⟨0, 1, 1, true⟩ emptyCell emptyCell
        ⟨false, false, true, false⟩).log ∧
    mainReturn MainOutcome.loopExit = 0 ∧
    ¬ mainReturn MainOutcome.loopExit < 0 := by
  decide

/-- C4 (amended): every exit of the main loop, including one forced by a
    play-start failure, returns 0; the construction and thread failures get
    the distinct negative codes -1, -2, -4, -5, -6; and no outcome ever
    returns the declared play-failure code RET_MPPF. -/
theorem c4_theorem (s : SchedState) (cc lc : Cell) (inp : TickInput) (o : MainOutcome)
    (h : inp.playFails = true) (hp : inp.isPlaying = false) (he : inp.escape = false) :
    (tick clips s cc lc inp).state.running = false ∧
    mainReturn MainOutcome.loopExit = 0 ∧
    mainReturn MainOutcome.mediaItemFail = -1 ∧
    mainReturn MainOutcome.playerCreateFail = -2 ∧
    mainReturn MainOutcome.keyboardThreadFail = -4 ∧
    mainReturn MainOutcome.controllerThreadFail = -5 ∧
    mainReturn MainOutcome.ctlInOpenFail = -6 ∧
    ¬ mainReturn o = RET_MPPF := by
  refine ⟨?_, rfl, rfl, rfl, rfl, rfl, rfl, ?_⟩
  · simp only [tick, hp, loopStep_playing_false, clipStep_playing_false]
    exact endStep_running_false_of_playFails clips _ inp h he
  · cases o <;> decide

/-- C4 (witness): the amended exit-code facts at a concrete input. -/
theorem c4_witness :
    (tick clips ⟨0, 1, 1, true⟩ emptyCell emptyCell
        ⟨false, false, true, false⟩).state.running = false ∧
    mainReturn MainOutcome.loopExit = 0 ∧
    mainReturn MainOutcome.mediaItemFail = -1 ∧
    mainReturn MainOutcome.playerCreateFail = -2 ∧
    mainReturn MainOutcome.keyboardThreadFail = -4 ∧
    mainReturn MainOutcome.controllerThreadFail = -5 ∧
    mainReturn MainOutcome.ctlInOpenFail = -6 ∧
    ¬ mainReturn MainOutcome.loopExit = RET_MPPF :=
  c4_theorem ⟨0, 1, 1, true⟩ emptyCell emptyCell ⟨false, false, true, false⟩
    MainOutcome.loopExit rfl rfl rfl

/-- C5 (counterexample): on the tick where the escape hatch fires the
    completion branch is skipped, so a finished non-Loop clip produces no
    notification even though the engine reports not playing. -/
theorem c5_counterexample :
    ¬ (clipAt clips 5).type = ClipType.loop ∧
    (tick clips ⟨0, 1, 5, true⟩ emptyCell emptyCell
        ⟨false, true, false, false⟩).notifications = [] := by
  decide

/-- C5 (amended): on every tick where the escape hatch has not fired and the
    engine reports not playing, exactly one videoEnds notification goes out
    when the finished clip is not Loop-kind and none when it is; a write
    error is logged but the notification is still sent once and the tick
    still proceeds to restart playback. -/
theorem c5_theorem (s : SchedState) (inp : TickInput)
    (he : inp.escape = false) (hp : inp.isPlaying = false) :
    ((tick clips s emptyCell emptyCell inp).notifications =
      if (clipAt clips s.nowPlayingId).type ≠ ClipType.loop then ["!videoEnds\n"] else []) ∧
    (inp.writeError = true → ¬ (clipAt clips s.nowPlayingId).type = ClipType.loop →
      LogEvent.videoEndsWriteError ∈ (tick clips s emptyCell emptyCell inp).log) ∧
    (tick clips s emptyCell emptyCell inp).played.isSome = true := by
  have hA := loopStep_passive clips s emptyCell inp.isPlaying rfl
  have hB := clipStep_passive clips s emptyCell inp.isPlaying rfl
  rw [hp] at hA hB
  simp only [tick, hp, hA, hB]
  unfold endStep
  refine ⟨?_, ?_, ?_⟩
  · simp [he]
  · intro hw htype
    simp [he, hw, htype]
  · simp [he]

/-- C5 (witness): a finished playOnce clip with a write error: the
    notification goes out once and the error is logged. -/
theorem c5_witness :
    (tick clips ⟨0, 1, 5, true⟩ emptyCell emptyCell
        ⟨false, false, false, true⟩).notifications = ["!videoEnds\n"] ∧
    LogEvent.videoEndsWriteError ∈ (tick clips ⟨0, 1, 5, true⟩ emptyCell emptyCell
        ⟨false, false, false, true⟩).log ∧
    (tick clips ⟨0, 1, 5, true⟩ emptyCell emptyCell
        ⟨false, false, false, true⟩).played.isSome = true := by
  have h := c5_theorem ⟨0, 1, 5, true⟩ ⟨false, false, false, true⟩ rfl rfl
  exact ⟨by rw [h.1]; decide, h.2.1 rfl (by decide), h.2.2⟩

/-- C6: a drained loop request for a Loop-kind id in range updates
    reqLoopId; when the playing clip is the old background loop, the engine
    is paused, nowPlayingId is swapped and the reselection plays the new
    loop; an out-of-range or non-Loop id is discarded with a warning and
    changes nothing. -/
theorem c6_theorem (s : SchedState) (v : Int) (cc : Cell) (inp : TickInput)
    (hcc : cc.present = false) (hp : inp.isPlaying = true) (he : inp.escape = false)
    (hq : s.reqClipId = 0) (hf : inp.playFails = false) :
    ((0 ≤ v ∧ v < CLIP_COUNT ∧ (clipAt clips v).type = ClipType.loop) →
      ((s.nowPlayingId = s.reqLoopId →
          tick clips s cc (submit v emptyCell) inp =
            ⟨⟨0, v, v, s.running⟩, cc, ⟨v, false⟩, true, [], some v,
              [LogEvent.switchingLoop v]⟩) ∧
       (¬ s.nowPlayingId = s.reqLoopId →
          tick clips s cc (submit v emptyCell) inp =
            ⟨⟨0, v, s.nowPlayingId, s.running⟩, cc, ⟨v, false⟩, false, [], none,
              [LogEvent.switchingLoop v]⟩))) ∧
    ((v < 0 ∨ v ≥ CLIP_COUNT) →
      tick clips s cc (submit v emptyCell) inp =
        ⟨⟨0, s.reqLoopId, s.nowPlayingId, s.running⟩, cc, ⟨v, false⟩, false, [], none,
          [LogEvent.nonExistentLoop v]⟩) ∧
    ((0 ≤ v ∧ v < CLIP_COUNT ∧ ¬ (clipAt clips v).type = ClipType.loop) →
      tick clips s cc (submit v emptyCell) inp =
        ⟨⟨0, s.reqLoopId, s.nowPlayingId, s.running⟩, cc, ⟨v, false⟩, false, [], none,
          [LogEvent.nonLoopingClip v]⟩) := by
  obtain ⟨q, l, n, r⟩ := s
  simp only at hq
  subst hq
  refine ⟨?_, ?_, ?_⟩
  · rintro ⟨h0, h1, h2⟩
    have hrange : ¬ (v < 0 ∨ v ≥ (clips.length : Int)) := by
      push_neg
      exact ⟨h0, h1⟩
    constructor
    · intro hnp
      simp only at hnp
      have hL : loopStep clips ⟨0, l, n, r⟩ (submit v emptyCell) inp.isPlaying =
          ⟨⟨0, v, v, r⟩, ⟨v, false⟩, true, false, [LogEvent.switchingLoop v]⟩ := by
        unfold loopStep
        simp [submit, emptyCell, hrange, h2, hnp]
      have hC := clipStep_passive clips ⟨0, v, v, r⟩ cc false hcc
      simp only [tick, hL, hC]
      unfold endStep selectNext
      simp [he, hf, h2]
    · intro hnp
      simp only at hnp
      have hL : loopStep clips ⟨0, l, n, r⟩ (submit v emptyCell) inp.isPlaying =
          ⟨⟨0, v, n, r⟩, ⟨v, false⟩, false, inp.isPlaying, [LogEvent.switchingLoop v]⟩ := by
        unfold loopStep
        simp [submit, emptyCell, hrange, h2, hnp]
      have hC := clipStep_passive clips ⟨0, v, n, r⟩ cc inp.isPlaying hcc
      simp only [tick, hL, hC]
      unfold endStep
      simp [he, hp]
  · intro hbad
    have hrange : v < 0 ∨ v ≥ (clips.length : Int) := hbad
    have hL : loopStep clips ⟨0, l, n, r⟩ (submit v emptyCell) inp.isPlaying =
        ⟨⟨0, l, n, r⟩, ⟨v, false⟩, false, inp.isPlaying, [LogEvent.nonExistentLoop v]⟩ := by
      unfold loopStep
      simp [submit, emptyCell, hrange]
    have hC := clipStep_passive clips ⟨0, l, n, r⟩ cc inp.isPlaying hcc
    simp only [tick, hL, hC]
    unfold endStep
    simp [he, hp]
  · rintro ⟨h0, h1, h2⟩
    have hrange : ¬ (v < 0 ∨ v ≥ (clips.length : Int)) := by
      push_neg
      exact ⟨h0, h1⟩
    have hL : loopStep clips ⟨0, l, n, r⟩ (submit v emptyCell) inp.isPlaying =
        ⟨⟨0, l, n, r⟩, ⟨v, false⟩, false, inp.isPlaying, [LogEvent.nonLoopingClip v]⟩ := by
      unfold loopStep
      simp [submit, emptyCell, hrange, h2]
    have hC := clipStep_passive clips ⟨0, l, n, r⟩ cc inp.isPlaying hcc
    simp only [tick, hL, hC]
    unfold endStep
    simp [he, hp]

/-- C6 (witness): hot-swapping the playing background loop 1 for loop 2
    pauses the engine and restarts on clip 2. -/
theorem c6_witness :
    tick clips ⟨0, 1, 1, true⟩ emptyCell (submit 2 emptyCell)
        ⟨true, false, false, false⟩ =
      ⟨⟨0, 2, 2, true⟩, emptyCell, ⟨2, false⟩, true, [], some 2,
        [LogEvent.switchingLoop 2]⟩ :=
  ((c6_theorem ⟨0, 1, 1, true⟩ 2 emptyCell ⟨true, false, false, false⟩
      rfl rfl rfl rfl rfl).1 (by decide)).1 rfl

/-- C7: a drain clears the cell so a second drain delivers nothing, and
    submitting the same id twice before a drain equals submitting it once:
    the mailbox never delivers a request twice and repeated identical
    submissions are idempotent. -/
theorem c7_theorem (c : Cell) (v : Int) (h : (drain c).1 = some v) :
    (drain (drain c).2).1 = none ∧
    (drain (submit v c)).1 = some v ∧
    submit v (submit v c) = submit v c ∧
    drain (submit v (submit v c)) = drain (submit v c) := by
  obtain ⟨cv, cp⟩ := c
  cases cp
  · simp [drain] at h
  · simp only [drain, submit] at h ⊢
    simp_all

/-- C7 (witness): the mailbox facts at a concrete cell holding id 5. -/
theorem c7_witness :
    (drain (drain ⟨5, true⟩).2).1 = none ∧
    (drain (submit 5 ⟨5, true⟩)).1 = some 5 ∧
    submit 5 (submit 5 (⟨5, true⟩ : Cell)) = submit 5 ⟨5, true⟩ ∧
    drain (submit 5 (submit 5 (⟨5, true⟩ : Cell))) = drain (submit 5 ⟨5, true⟩) :=
  c7_theorem ⟨5, true⟩ 5 rfl

/-- C8: the sscanf field width in doCommand equals the declared row size
    MAX_WSIZE of the token buffers, so a full-width 20-character token is
    stored as 21 bytes, one more than a row holds: the truncation is not
    safe, an off-by-one of the %20s width against char[20]. -/
theorem c8_overflow :
    scanStoreBytes (String.mk (List.replicate 20 'c')) = MAX_WSIZE + 1 ∧
    MAX_WSIZE + 1 > MAX_WSIZE ∧
    scanFieldWidth = MAX_WSIZE := by
  decide

/-- C9: a keyboard line starting with the marker is not forwarded byte for
    byte: it is used as the fprintf format string, so the line with body
    containing a doubled percent sign is delivered with a single percent
    sign, differing from the verbatim body. -/
theorem c9_format :
    keyboardForward "!say %%\n" = some "say %\n" ∧
    ¬ String.drop "!say %%\n" 1 = "say %\n" := by
  decide

/-- C10: clip id 0 is both the no-pending-request sentinel and a valid
    catalog id; the by-id handlers substitute 0 for a missing or invalid
    argument; a drained request for 0 leaves reqClipId at the sentinel so
    the reselection picks the background loop; and the pending-request
    branch never starts clip 0. -/
theorem c10_theorem (cell : Cell) (s s2 : SchedState) (cc lc cc2 lc2 : Cell)
    (inp inp2 : TickInput)
    (hq : s.reqClipId = 0) (hlc : lc.present = false) (he : inp.escape = false)
    (hp : inp.isPlaying = false) :
    onPlayClip clips 1 "" cell = submit 0 cell ∧
    onPlayClip clips 2 "99" cell = submit 0 cell ∧
    onSetLoop clips 1 "" cell = submit 0 cell ∧
    (0 : Int) < CLIP_COUNT ∧
    (clipAt clips 0).name = "noClip" ∧
    (tick clips s (submit 0 cc) lc inp).state.reqClipId = 0 ∧
    (tick clips s (submit 0 cc) lc inp).state.nowPlayingId = s.reqLoopId ∧
    LogEvent.startingClip 0 ∉ (tick clips s2 cc2 lc2 inp2).log := by
  obtain ⟨q, l, n, r⟩ := s
  simp only at hq
  subst hq
  have hA := loopStep_passive clips ⟨0, l, n, r⟩ lc inp.isPlaying hlc
  rw [hp] at hA
  have hlen : (clips.length : Int) = 48 := by decide
  have hC : clipStep clips ⟨0, l, n, r⟩ (submit 0 cc) false =
      ⟨⟨0, l, n, r⟩, ⟨0, false⟩, false, false, [LogEvent.switchingClip 0]⟩ := by
    unfold clipStep
    simp [submit, hlen]
  have key : (tick clips ⟨0, l, n, r⟩ (submit 0 cc) lc inp).state =
      ⟨0, l, l, if inp.playFails = true then false else r⟩ := by
    simp only [tick, hp, hA, hC]
    unfold endStep selectNext
    simp [he]
  exact ⟨rfl, rfl, rfl, by decide, by decide, by rw [key], by rw [key],
    tick_no_startingClip_zero _ _ _ _ _⟩

/-- C10 (witness): the sentinel facts at concrete inputs. -/
theorem c10_witness :
    onPlayClip clips 1 "" emptyCell = submit 0 emptyCell ∧
    onPlayClip clips 2 "99" emptyCell = submit 0 emptyCell ∧
    onSetLoop clips 1 "" emptyCell = submit 0 emptyCell ∧
    (0 : Int) < CLIP_COUNT ∧
    (clipAt clips 0).name = "noClip" ∧
    (tick clips ⟨0, 1, 5, true⟩ (submit 0 emptyCell) emptyCell
        ⟨false, false, false, false⟩).state.reqClipId = 0 ∧
    (tick clips ⟨0, 1, 5, true⟩ (submit 0 emptyCell) emptyCell
        ⟨false, false, false, false⟩).state.nowPlayingId = 1 ∧
    LogEvent.startingClip 0 ∉ (tick clips ⟨0, 1, 1, true⟩ ⟨7, true⟩ emptyCell
        ⟨false, false, false, false⟩).log :=
  c10_theorem emptyCell ⟨0, 1, 5, true⟩ ⟨0, 1, 1, true⟩ emptyCell emptyCell
    ⟨7, true⟩ emptyCell ⟨false, false, false, false⟩ ⟨false, false, false, false⟩
    rfl rfl rfl rfl

end MediaPlayer
